import Mathlib

/-!
# A shallow embedding of the pre-lease-server authentication core

This file embeds the authentication and session-token lifecycle of the
repository (controllers/user.js, services/otpService.js, and the persistence
operations they invoke) as executable Lean definitions, and proves the
behavioural claims about signup, login, logout, refresh and switch-role.

Persistence is modelled as an explicit database state (`DB`) holding the
`users`, `roles`, `user_roles` and `tokens` tables as lists; Sequelize's
`Model.update(values, where)` is an update of every matching row returning the
affected count, and `Model.create` appends a fresh row.  Signed JWTs are
modelled as their decoded claim records (`RToken`, `AToken`): for a fixed
signing secret the signed string and its payload determine one another, so
token strings are identified with their claims.  Network calls to the OTP
provider are embedded by taking the provider's response as an input.
-/

namespace Auth

/-- JS string truthiness for optional request fields: the empty string models
an absent / falsy field, anything else is present. -/
def strOrNull (s : String) : Option String := if s == "" then none else some s

/-- JS `a || b` for an optional string `a` (absent or empty falls through). -/
def jsOrElse (m : Option String) (d : String) : String :=
  match m with
  | some s => if s == "" then d else s
  | none => d

/-- Error value thrown by `createAppError(message, statusCode)`. -/
structure AppErr where
  message : String
  statusCode : Nat
deriving DecidableEq, Repr

/-- Decoded claims of a signed refresh token
(`Token.generateRefreshToken(userId, roleName)`): subject id, role claim and
issued-at.  An empty `role` models an absent/falsy role claim. -/
structure RToken where
  sub : Nat
  role : String
  iat : Nat
deriving DecidableEq, Repr

/-- Decoded claims of a signed access token
(`Token.generateAccessToken(userId, roleName)`). -/
structure AToken where
  sub : Nat
  role : String
  iat : Nat
deriving DecidableEq, Repr

/-- `Token.generateRefreshToken(userId, roleName)` minted at time `now`. -/
def generateRefreshToken (userId : Nat) (roleName : String) (now : Nat) : RToken :=
  ⟨userId, roleName, now⟩

/-- `Token.generateAccessToken(userId, roleName)` minted at time `now`. -/
def generateAccessToken (userId : Nat) (roleName : String) (now : Nat) : AToken :=
  ⟨userId, roleName, now⟩

/-- Modelled from the spec: the configured refresh-token lifetime
(`process.env.REFRESH_TOKEN_EXPIRY`), an "external duration spec"; the exact
value is configuration, fixed here to seven days in milliseconds. -/
def REFRESH_TOKEN_EXPIRY : Nat := 604800000

/-- `Token.calculateExpiryDate(process.env.REFRESH_TOKEN_EXPIRY)` evaluated at
time `now`: the expiry timestamp a freshly issued refresh token receives. -/
def calculateExpiryDate (now : Nat) : Nat := now + REFRESH_TOKEN_EXPIRY

/-- A row of the `users` table. -/
structure UserRec where
  userId : Nat
  mobileNumber : String
  email : String
  firstName : String
  lastName : String
  reraNumber : Option String
  userType : String
  isActive : Bool
  lastLoginAt : Option Nat
deriving DecidableEq, Repr

/-- A row of the `roles` table. -/
structure RoleRec where
  roleId : Nat
  roleName : String
  roleType : String
  isActive : Bool
deriving DecidableEq, Repr

/-- A row of the `user_roles` join table. -/
structure UserRoleRec where
  userId : Nat
  roleId : Nat
  assignedBy : Option Nat
deriving DecidableEq, Repr

/-- A row of the `tokens` table (RefreshTokenRecord). -/
structure TokenRec where
  tokenId : Nat
  userId : Nat
  refreshToken : RToken
  expiresAt : Nat
  deviceId : Option String
  userAgent : Option String
  ipAddress : Option String
  isActive : Bool
  lastUsedAt : Option Nat
  revokedReason : Option String
deriving DecidableEq, Repr

/-- The persistence state: the four tables plus the id sequences. -/
structure DB where
  users : List UserRec
  roles : List RoleRec
  userRoles : List UserRoleRec
  tokens : List TokenRec
  nextUserId : Nat
  nextTokenId : Nat
deriving DecidableEq, Repr

/-- Sequelize `Token.update(values, { where })`: update every matching row in
place and return the affected count alongside the new state. -/
def tokenUpdate (db : DB) (pred : TokenRec → Bool) (f : TokenRec → TokenRec) :
    Nat × DB :=
  ((db.tokens.filter pred).length,
   { db with tokens := db.tokens.map (fun t => if pred t then f t else t) })

/-- Sequelize `Token.create(fields)`: append a fresh row, consuming the next
token id.  `mk` builds the row from the allocated id. -/
def tokenCreate (db : DB) (mk : Nat → TokenRec) : DB :=
  { db with tokens := db.tokens ++ [mk db.nextTokenId],
            nextTokenId := db.nextTokenId + 1 }

/-- The where-clause `{ userId, isActive: true }` of the rotate update used by
login and switch-role. -/
def rotateWhere (uid : Nat) (t : TokenRec) : Bool :=
  t.userId == uid && t.isActive

/-- Modelled from the spec: `validateRequiredFields` (utils/validators.js is
not in src) returns the names of the required fields missing from the body. -/
def missingFields (fields : List (String × String)) : List String :=
  (fields.filter (fun p => p.2 == "")).map (fun p => p.1)

/-- Modelled from the spec: `isValidPhone` (utils/validators.js is not in
src); per the spec and the controller's own error message, a valid mobile
number is 10 digits starting with 6-9. -/
def isValidPhone (s : String) : Bool :=
  s.data.length == 10 && s.data.all (fun c => c.isDigit) &&
    (match s.data with
     | [] => false
     | c :: _ => c == '6' || c == '7' || c == '8' || c == '9')

/-- Modelled from the spec: `isValidEmail` (utils/validators.js is not in
src); email syntax validation, abstracted to the presence of an `@`. -/
def isValidEmail (s : String) : Bool := s.data.any (fun c => c == '@')

/-- The OTP provider's response to the `validateOtp` call, as consumed by
`verifyOtp` in services/otpService.js. -/
structure ProviderVerifyResp where
  responseCode : Nat
  verificationStatus : Option String
  message : Option String
deriving DecidableEq, Repr

/-- `verifyOtp` from services/otpService.js: maps the provider response to
either success or a thrown `AppErr`, branching on `responseCode` 702 / 705 /
800 and otherwise requiring `responseCode === 200` together with
`verificationStatus === "VERIFICATION_COMPLETED"`. -/
def verifyOtp (resp : ProviderVerifyResp) : Except AppErr Unit :=
  if resp.responseCode == 702 then
    .error ⟨"Invalid OTP entered", 400⟩
  else if resp.responseCode == 705 then
    .error ⟨"OTP has expired. Please request a new one.", 400⟩
  else if resp.responseCode == 800 then
    .error ⟨"Maximum verification attempts reached. Please request a new OTP.", 429⟩
  else if resp.responseCode != 200 ||
      resp.verificationStatus != some "VERIFICATION_COMPLETED" then
    .error ⟨jsOrElse resp.message "OTP verification failed. Please try again.", 400⟩
  else
    .ok ()

/-- The spec's closed outcome taxonomy for OTP verification (§4.1): written
from the spec's words, to be compared with `verifyOtp` from the source. -/
inductive OtpOutcome where
  | verified
  | invalidOtp
  | otpExpired
  | rateLimited
  | upstreamError
deriving DecidableEq, Repr

/-- The spec-side classifier (§4.1): invalid code, expired challenge,
exhausted attempt budget, any other non-success, and success only on a
success status code together with the explicit completion status. -/
def classifyOtpSpec (resp : ProviderVerifyResp) : OtpOutcome :=
  if resp.responseCode == 702 then .invalidOtp
  else if resp.responseCode == 705 then .otpExpired
  else if resp.responseCode == 800 then .rateLimited
  else if resp.responseCode == 200 &&
      resp.verificationStatus == some "VERIFICATION_COMPLETED" then .verified
  else .upstreamError

/-- The concrete result `verifyOtp` is expected to produce for each outcome of
the spec's taxonomy. -/
def otpExpected (resp : ProviderVerifyResp) : Except AppErr Unit :=
  match classifyOtpSpec resp with
  | .verified => .ok ()
  | .invalidOtp => .error ⟨"Invalid OTP entered", 400⟩
  | .otpExpired => .error ⟨"OTP has expired. Please request a new one.", 400⟩
  | .rateLimited =>
      .error ⟨"Maximum verification attempts reached. Please request a new OTP.", 429⟩
  | .upstreamError =>
      .error ⟨jsOrElse resp.message "OTP verification failed. Please try again.", 400⟩

/-- The active roles of a user, in assignment order: the `include` of `Role`
as `roles` through `user_roles` with `where: { isActive: true }`. -/
def activeRolesOf (db : DB) (uid : Nat) : List RoleRec :=
  (db.userRoles.filter (fun ur => ur.userId == uid)).filterMap
    (fun ur => db.roles.find? (fun r => r.roleId == ur.roleId && r.isActive))

/-- `roles[0].roleName`, the user's first active role on record. -/
def headRoleName (rs : List RoleRec) : String :=
  match rs with
  | [] => ""
  | r :: _ => r.roleName

/-- `User.findOne({ where: { mobileNumber, isActive: true }, include: roles
where isActive })` — the `where` inside the include makes it an inner join, so
a user with no active role yields `null`. -/
def findActiveUserByMobile (db : DB) (m : String) :
    Option (UserRec × List RoleRec) :=
  match db.users.find? (fun u => u.mobileNumber == m && u.isActive) with
  | none => none
  | some u =>
      let rs := activeRolesOf db u.userId
      if rs.isEmpty then none else some (u, rs)

/-- `User.findOne({ where: { userId, isActive: true }, include: roles where
isActive })` used by refresh. -/
def findActiveUserById (db : DB) (uid : Nat) :
    Option (UserRec × List RoleRec) :=
  match db.users.find? (fun u => u.userId == uid && u.isActive) with
  | none => none
  | some u =>
      let rs := activeRolesOf db u.userId
      if rs.isEmpty then none else some (u, rs)

/-- The set of switchable client roles, as hard-coded in login and
switch-role. -/
def validClientRoles : List String := ["Owner", "Broker", "Investor"]

/-- A login request body together with the provider's response to the OTP
verification round trip and the request metadata read from headers.  Absent
optional fields are the empty string. -/
structure LoginReq where
  mobileNumber : String
  otp : String
  verificationId : String
  roleName : String
  deviceId : String
  userAgent : String
  ip : String
  providerResp : ProviderVerifyResp
deriving DecidableEq, Repr

/-- The `data` object of a successful login response. -/
structure LoginData where
  userId : Nat
  role : String
  roles : List String
  accessToken : AToken
  refreshToken : RToken
  name : String
  email : String
deriving DecidableEq, Repr

/-- The input-shape checks of login: required fields, then the mobile-number
syntax check. -/
def loginValidate (rq : LoginReq) : Option AppErr :=
  let missing := missingFields
    [("mobileNumber", rq.mobileNumber), ("otp", rq.otp),
     ("verificationId", rq.verificationId)]
  if !missing.isEmpty then
    some ⟨"Missing required fields: " ++ String.intercalate ", " missing, 400⟩
  else if !isValidPhone rq.mobileNumber then
    some ⟨"Invalid mobile number. Must be 10 digits starting with 6-9", 400⟩
  else
    none

/-- The role-selection branch of login (controllers/user.js lines 361-396):
only when a role name is supplied and the user is of type `client` is the
requested role validated against the client-role set and auto-granted when not
yet held; otherwise the first active role on record is used and the state is
untouched. -/
def loginRoleStep (db : DB) (u : UserRec) (rs : List RoleRec)
    (roleName : String) : Except AppErr (String × DB) :=
  if roleName != "" && u.userType == "client" then
    if !(validClientRoles.contains roleName) then
      .error ⟨"Invalid role. Please choose: Owner, Investor, or Broker", 400⟩
    else if !(rs.any (fun r => r.roleName == roleName)) then
      match db.roles.find?
          (fun r => r.roleName == roleName && r.roleType == "client" && r.isActive) with
      | none => .error ⟨"Role not found or inactive", 400⟩
      | some nr =>
          .ok (roleName,
               { db with userRoles := db.userRoles ++ [⟨u.userId, nr.roleId, none⟩] })
    else
      .ok (roleName, db)
  else
    .ok (headRoleName rs, db)

/-- The per-row effect of login's rotate update (`Token.update` at
controllers/user.js lines 405-421): the freshly minted refresh token, new
expiry, the request's device metadata, and the last-used timestamp. -/
def loginRotFn (rtok : RToken) (rq : LoginReq) (now : Nat) (t : TokenRec) :
    TokenRec :=
  { t with refreshToken := rtok,
           expiresAt := calculateExpiryDate now,
           deviceId := strOrNull rq.deviceId,
           userAgent := strOrNull rq.userAgent,
           ipAddress := strOrNull rq.ip,
           isActive := true,
           lastUsedAt := some now }

/-- Login's rotate step: rewrite every row matching `{ userId, isActive:
true }`, returning the affected count. -/
def loginRotate (db : DB) (uid : Nat) (rtok : RToken) (rq : LoginReq)
    (now : Nat) : Nat × DB :=
  tokenUpdate db (rotateWhere uid) (loginRotFn rtok rq now)

/-- The row created by login's fallback `Token.create` (controllers/user.js
lines 428-437). -/
def loginNewRow (tid uid : Nat) (rtok : RToken) (rq : LoginReq) (now : Nat) :
    TokenRec :=
  ⟨tid, uid, rtok, calculateExpiryDate now, strOrNull rq.deviceId,
   strOrNull rq.userAgent, strOrNull rq.ip, true, none, none⟩

/-- Login's fallback create (`Token.create` at controllers/user.js lines
428-437). -/
def loginCreateToken (db : DB) (uid : Nat) (rtok : RToken) (rq : LoginReq)
    (now : Nat) : DB :=
  tokenCreate db (fun tid => loginNewRow tid uid rtok rq now)

/-- `User.update({ lastLoginAt }, { where: { mobileNumber } })`. -/
def touchLastLogin (db : DB) (m : String) (now : Nat) : DB :=
  { db with users := db.users.map (fun u =>
      if u.mobileNumber == m then { u with lastLoginAt := some now } else u) }

/-- The tail of a successful login once the user and their active roles are
resolved: role selection / auto-grant, refresh-token mint, rotate-or-create,
last-login touch, access-token mint and response assembly, in the source's
order. -/
def loginFinish (db : DB) (rq : LoginReq) (u : UserRec) (rs : List RoleRec)
    (now : Nat) : Except AppErr LoginData × DB :=
  match loginRoleStep db u rs rq.roleName with
  | .error e => (.error e, db)
  | .ok (activeRole, db1) =>
      let rtok := generateRefreshToken u.userId activeRole now
      let upd := loginRotate db1 u.userId rtok rq now
      let db3 := touchLastLogin upd.2 rq.mobileNumber now
      let db4 := if upd.1 == 0 then loginCreateToken db3 u.userId rtok rq now else db3
      let atok := generateAccessToken u.userId activeRole now
      let names := rs.map (fun r => r.roleName)
      let allRoles :=
        if rq.roleName != "" && !(names.contains rq.roleName) then
          names ++ [rq.roleName]
        else names
      (.ok ⟨u.userId, activeRole, allRoles, atok, rtok,
            u.firstName ++ " " ++ u.lastName, u.email⟩, db4)

/-- `login` from controllers/user.js (lines 295-495): validation, OTP
verification, user lookup, then `loginFinish`.  Returns the response outcome
together with the post-state. -/
def login (db : DB) (rq : LoginReq) (now : Nat) :
    Except AppErr LoginData × DB :=
  match loginValidate rq with
  | some e => (.error e, db)
  | none =>
      match verifyOtp rq.providerResp with
      | .error e => (.error e, db)
      | .ok _ =>
          match findActiveUserByMobile db rq.mobileNumber with
          | none => (.error ⟨"Account does not exist, please sign up first", 404⟩, db)
          | some (u, rs) =>
              if rs.isEmpty then
                (.error ⟨"No active role assigned to this account", 403⟩, db)
              else
                loginFinish db rq u rs now

/-- A signup request body together with the provider's OTP-verification
response and header metadata; absent optional fields are the empty string. -/
structure SignupReq where
  mobileNumber : String
  email : String
  firstName : String
  lastName : String
  reraNumber : String
  roleName : String
  otp : String
  verificationId : String
  deviceId : String
  userAgent : String
  ip : String
  providerResp : ProviderVerifyResp
deriving DecidableEq, Repr

/-- The `data` object of a successful signup response. -/
structure SignupData where
  userId : Nat
  role : String
  accessToken : AToken
  refreshToken : RToken
deriving DecidableEq, Repr

/-- The input-shape checks of signup: required fields, email syntax, then the
mobile-number syntax check. -/
def signupValidate (rq : SignupReq) : Option AppErr :=
  let missing := missingFields
    [("mobileNumber", rq.mobileNumber), ("email", rq.email),
     ("firstName", rq.firstName), ("lastName", rq.lastName),
     ("otp", rq.otp), ("verificationId", rq.verificationId)]
  if !missing.isEmpty then
    some ⟨"Missing required fields: " ++ String.intercalate ", " missing, 400⟩
  else if !isValidEmail rq.email then
    some ⟨"Invalid email format", 400⟩
  else if !isValidPhone rq.mobileNumber then
    some ⟨"Invalid mobile number. Must be 10 digits starting with 6-9", 400⟩
  else
    none

/-- The `Op.or` where-condition of signup's uniqueness check: mobile number or
email, plus the registration number only when supplied. -/
def signupWhere (rq : SignupReq) (u : UserRec) : Bool :=
  u.mobileNumber == rq.mobileNumber || u.email == rq.email ||
    (rq.reraNumber != "" && u.reraNumber == some rq.reraNumber)

/-- The conflict disambiguation chain of signup (controllers/user.js lines
159-167): email first, then mobile number, then registration number. -/
def signupConflict (rq : SignupReq) (ex : UserRec) : Option AppErr :=
  if ex.email == rq.email then some ⟨"Email already exists", 409⟩
  else if ex.mobileNumber == rq.mobileNumber then
    some ⟨"Mobile number already exists", 409⟩
  else if rq.reraNumber != "" && ex.reraNumber == some rq.reraNumber then
    some ⟨"Rera number already exists", 409⟩
  else none

/-- The transactional tail of signup once the role is resolved: create the
user, the role assignment and the initial refresh-token row atomically, then
mint the access token and assemble the response. -/
def signupTail (db : DB) (rq : SignupReq) (roleRecord : RoleRec) (now : Nat) :
    Except AppErr SignupData × DB :=
  let uid := db.nextUserId
  let newUser : UserRec :=
    ⟨uid, rq.mobileNumber, rq.email, rq.firstName, rq.lastName,
     strOrNull rq.reraNumber, "client", true, none⟩
  let rtok := generateRefreshToken uid roleRecord.roleName now
  let db1 := { db with users := db.users ++ [newUser],
                       userRoles := db.userRoles ++ [⟨uid, roleRecord.roleId, none⟩],
                       nextUserId := uid + 1 }
  let db2 := tokenCreate db1 (fun tid =>
    ⟨tid, uid, rtok, calculateExpiryDate now, strOrNull rq.deviceId,
     strOrNull rq.userAgent, strOrNull rq.ip, true, none, none⟩)
  let atok := generateAccessToken uid roleRecord.roleName now
  (.ok ⟨uid, roleRecord.roleName, atok, rtok⟩, db2)

/-- Signup's uniqueness check: one combined `findOne` over the disjunction of
the supplied identifiers, disambiguated by `signupConflict`. -/
def signupLookupError (db : DB) (rq : SignupReq) : Option AppErr :=
  match db.users.find? (signupWhere rq) with
  | some ex => signupConflict rq ex
  | none => none

/-- Signup's role resolution: `Role.findOne({ roleName: roleName || "Broker",
roleType: "client", isActive: true })`. -/
def signupRoleLookup (db : DB) (rq : SignupReq) : Option RoleRec :=
  db.roles.find? (fun r => r.roleName ==
    (if rq.roleName == "" then "Broker" else rq.roleName) &&
    r.roleType == "client" && r.isActive)

/-- `signup` from controllers/user.js (lines 76-290): validation, OTP
verification, the combined uniqueness lookup with its disambiguation chain,
role resolution (`roleName || "Broker"` among active client roles), then the
transactional creation of user, role assignment and refresh token. -/
def signup (db : DB) (rq : SignupReq) (now : Nat) :
    Except AppErr SignupData × DB :=
  match signupValidate rq with
  | some e => (.error e, db)
  | none =>
      match verifyOtp rq.providerResp with
      | .error e => (.error e, db)
      | .ok _ =>
          match signupLookupError db rq with
          | some e => (.error e, db)
          | none =>
              match signupRoleLookup db rq with
              | none =>
                  (.error ⟨"Invalid role. Please choose: Owner, Investor, or Broker", 400⟩, db)
              | some roleRecord => signupTail db rq roleRecord now

/-- Modelled from the spec: `Token.revokeToken(tokenString, reason)`
(models/token.js is not in src).  Per §4.3, revocation succeeds, returning
true, exactly when the token string matches an existing active row, which it
deactivates recording the reason; already-inactive or unknown tokens yield
false. -/
def revokeToken (db : DB) (tok : RToken) (reason : String) : Bool × DB :=
  (db.tokens.any (fun t => t.refreshToken == tok && t.isActive),
   { db with tokens := db.tokens.map (fun t =>
       if t.refreshToken == tok && t.isActive then
         { t with isActive := false, revokedReason := some reason }
       else t) })

/-- `logout` from controllers/user.js (lines 500-551): the bearer refresh
credential (`none` models an absent or non-Bearer Authorization header) is
revoked; a revoke miss is surfaced as a 400 client error. -/
def logout (db : DB) (auth : Option RToken) : Except AppErr Unit × DB :=
  match auth with
  | none =>
      (.error ⟨"Refresh token is required in Authorization header", 401⟩, db)
  | some rt =>
      let rv := revokeToken db rt "logout"
      if rv.1 then (.ok (), rv.2)
      else (.error ⟨"Token not found or already revoked", 400⟩, rv.2)

/-- Modelled from the spec: `Token.verifyRefreshToken(tokenString)`
(models/token.js is not in src).  Per §4.2/§4.3 it is a read-only two-stage
check: structural/cryptographic validity (for our structured tokens, decoding
is the identity) and liveness — the token string must still correspond to an
active, non-expired row.  On success it returns the decoded claims and the
matching record; any failure is invalid. -/
def verifyRefreshToken (db : DB) (tok : RToken) (now : Nat) :
    Option (RToken × TokenRec) :=
  match db.tokens.find?
      (fun t => t.refreshToken == tok && t.isActive && decide (now < t.expiresAt)) with
  | none => none
  | some rec => some (tok, rec)

/-- Modelled from the spec: liveness of a token string (§4.3/§5) — some
active, non-expired row holds it. -/
def isLive (db : DB) (tok : RToken) (now : Nat) : Bool :=
  db.tokens.any (fun t => t.refreshToken == tok && t.isActive && decide (now < t.expiresAt))

/-- The `data` object of a successful refresh response; the literal in the
source has exactly these fields. -/
structure RefreshData where
  userId : Nat
  role : String
  accessToken : AToken
  name : String
  email : String
deriving DecidableEq, Repr

/-- The keys of the response `data` object literal built by
`refreshAccessToken` (controllers/user.js lines 645-651), in source order. -/
def refreshDataKeys : List String :=
  ["userId", "role", "accessToken", "name", "email"]

/-- `refreshAccessToken` from controllers/user.js (lines 563-694): two-stage
verification of the bearer refresh token, user and active-role re-resolution,
role selection preferring the token's role claim when still held, minting of a
new access token only, and the last-used touch on the verified record. -/
def refreshAccessToken (db : DB) (auth : Option RToken) (now : Nat) :
    Except AppErr RefreshData × DB :=
  match auth with
  | none =>
      (.error ⟨"Refresh token is required in Authorization header", 401⟩, db)
  | some rt =>
      match verifyRefreshToken db rt now with
      | none => (.error ⟨"Invalid or expired refresh token", 401⟩, db)
      | some (decoded, tokenRecord) =>
          match findActiveUserById db decoded.sub with
          | none => (.error ⟨"User not found or account deactivated", 404⟩, db)
          | some (u, rs) =>
              if rs.isEmpty then
                (.error ⟨"No active role assigned to this account", 403⟩, db)
              else
                let activeRoleName :=
                  if decoded.role != "" && rs.any (fun r => r.roleName == decoded.role)
                  then decoded.role else headRoleName rs
                let atok := generateAccessToken u.userId activeRoleName now
                let upd := tokenUpdate db (fun t => t.tokenId == tokenRecord.tokenId)
                  (fun t => { t with lastUsedAt := some now })
                (.ok ⟨u.userId, activeRoleName, atok,
                      u.firstName ++ " " ++ u.lastName, u.email⟩, upd.2)

/-- The authenticated principal attached to the request by the auth
middleware: the caller's id, currently active role (from the access token's
claims) and role rows. -/
structure AuthUser where
  userId : Nat
  role : String
  roles : List RoleRec
deriving DecidableEq, Repr

/-- The `data` object of a successful switch-role response. -/
structure SwitchData where
  userId : Nat
  previousRole : String
  activeRole : String
  accessToken : AToken
  refreshToken : RToken
deriving DecidableEq, Repr

/-- The per-row effect of switch-role's rotate update (`Token.update` at
controllers/user.js lines 743-752): new refresh token, new expiry and
last-used timestamp; device and activity fields untouched. -/
def switchRotFn (rtok : RToken) (now : Nat) (t : TokenRec) : TokenRec :=
  { t with refreshToken := rtok,
           expiresAt := calculateExpiryDate now,
           lastUsedAt := some now }

/-- Switch-role's rotate step: rewrite every row matching `{ userId,
isActive: true }`, returning the affected count. -/
def switchRotate (db : DB) (uid : Nat) (rtok : RToken) (now : Nat) : Nat × DB :=
  tokenUpdate db (rotateWhere uid) (switchRotFn rtok now)

/-- The row created by switch-role's fallback `Token.create`
(controllers/user.js lines 755-762); note it records no device id. -/
def switchNewRow (tid uid : Nat) (rtok : RToken) (userAgent ip : String)
    (now : Nat) : TokenRec :=
  ⟨tid, uid, rtok, calculateExpiryDate now, none,
   strOrNull userAgent, strOrNull ip, true, none, none⟩

/-- Switch-role's fallback create (`Token.create` at controllers/user.js lines
755-762). -/
def switchCreateToken (db : DB) (uid : Nat) (rtok : RToken)
    (userAgent ip : String) (now : Nat) : DB :=
  tokenCreate db (fun tid => switchNewRow tid uid rtok userAgent ip now)

/-- `switchRole` from controllers/user.js (lines 696-807): the requested role
must be a switchable client role, must already be held, and must differ from
the currently active role; then new tokens bound to the new role are minted
and the refresh token is rotated-or-created. -/
def switchRole (db : DB) (user : AuthUser) (roleName : String)
    (userAgent ip : String) (now : Nat) : Except AppErr SwitchData × DB :=
  if roleName == "" then
    (.error ⟨"roleName is required", 400⟩, db)
  else if !(validClientRoles.contains roleName) then
    (.error ⟨"Only client roles (Owner, Broker, Investor) can be switched", 400⟩, db)
  else
    match user.roles.find? (fun r => r.roleName == roleName) with
    | none =>
        (.error ⟨"You do not have the role '" ++ roleName ++
           "'. Available roles: " ++
           String.intercalate ", "
             ((user.roles.filter (fun r => validClientRoles.contains r.roleName)).map
               (fun r => r.roleName)), 403⟩, db)
    | some _ =>
        if user.role == roleName then
          (.error ⟨"'" ++ roleName ++ "' is already your active role", 400⟩, db)
        else
          let atok := generateAccessToken user.userId roleName now
          let rtok := generateRefreshToken user.userId roleName now
          let upd := switchRotate db user.userId rtok now
          let db2 :=
            if upd.1 == 0 then
              switchCreateToken upd.2 user.userId rtok userAgent ip now
            else upd.2
          (.ok ⟨user.userId, user.role, roleName, atok, rtok⟩, db2)

/-- The number of active refresh-token rows owned by a user. -/
def activeCountU (db : DB) (uid : Nat) : Nat :=
  (db.tokens.filter (fun t => t.userId == uid && t.isActive)).length

/-- The number of active refresh-token rows for a (user, device) pair. -/
def activeCountUD (db : DB) (uid : Nat) (d : Option String) : Nat :=
  (db.tokens.filter (fun t => t.userId == uid && t.deviceId == d && t.isActive)).length

/-- The reachable-state invariant of the token store: every user owns at most
one active refresh-token row. -/
def Inv (db : DB) : Prop := ∀ uid, activeCountU db uid ≤ 1

/-! ## Generic lemmas about the persistence combinators -/

theorem length_filter_map_eq {α : Type} (l : List α) (q : α → Bool)
    (f : α → α) (h : ∀ a, q (f a) = q a) :
    ((l.map f).filter q).length = (l.filter q).length := by
  rw [List.filter_map, List.length_map]
  exact congrArg List.length (List.filter_congr (fun a _ => h a))

/-! ## Elimination lemmas for the success paths -/

theorem login_ok_elim {db : DB} {rq : LoginReq} {now : Nat} {d : LoginData}
    {db' : DB} (h : login db rq now = (.ok d, db')) :
    ∃ u rs, findActiveUserByMobile db rq.mobileNumber = some (u, rs) ∧
      rs.isEmpty = false ∧ loginFinish db rq u rs now = (.ok d, db') := by
  unfold login at h
  cases hv : loginValidate rq with
  | some e => rw [hv] at h; simp at h
  | none =>
    rw [hv] at h
    cases ho : verifyOtp rq.providerResp with
    | error e => rw [ho] at h; simp at h
    | ok v =>
      rw [ho] at h
      cases hf : findActiveUserByMobile db rq.mobileNumber with
      | none => rw [hf] at h; simp at h
      | some p =>
        rw [hf] at h
        obtain ⟨u, rs⟩ := p
        cases he : rs.isEmpty with
        | true => simp [he] at h
        | false => exact ⟨u, rs, rfl, he, by simpa [he] using h⟩

theorem loginRoleStep_frame {db : DB} {u : UserRec} {rs : List RoleRec}
    {rn : String} {a : String} {db1 : DB}
    (h : loginRoleStep db u rs rn = .ok (a, db1)) :
    db1.tokens = db.tokens ∧ db1.users = db.users ∧ db1.roles = db.roles ∧
    db1.nextTokenId = db.nextTokenId ∧ db1.nextUserId = db.nextUserId ∧
    ∃ extra, db1.userRoles = db.userRoles ++ extra := by
  unfold loginRoleStep at h
  split at h
  · split at h
    · simp at h
    · split at h
      · split at h
        · simp at h
        · rename_i nr hnr
          rw [Except.ok.injEq, Prod.mk.injEq] at h
          obtain ⟨h1, h2⟩ := h
          subst h2
          exact ⟨rfl, rfl, rfl, rfl, rfl, [⟨u.userId, nr.roleId, none⟩], rfl⟩
      · rw [Except.ok.injEq, Prod.mk.injEq] at h
        obtain ⟨h1, h2⟩ := h
        subst h2
        exact ⟨rfl, rfl, rfl, rfl, rfl, [], by simp⟩
  · rw [Except.ok.injEq, Prod.mk.injEq] at h
    obtain ⟨h1, h2⟩ := h
    subst h2
    exact ⟨rfl, rfl, rfl, rfl, rfl, [], by simp⟩

/-- Full description of the state and payload a successful login produces,
in terms of the pre-state. -/
theorem login_ok_shape {db : DB} {rq : LoginReq} {now : Nat} {d : LoginData}
    {db' : DB} (h : login db rq now = (.ok d, db')) :
    d.refreshToken = generateRefreshToken d.userId d.role now ∧
    d.accessToken = generateAccessToken d.userId d.role now ∧
    (∃ u rs, findActiveUserByMobile db rq.mobileNumber = some (u, rs) ∧
      u.userId = d.userId ∧ rs.isEmpty = false) ∧
    db'.tokens =
      (db.tokens.map (fun t =>
        if rotateWhere d.userId t then loginRotFn d.refreshToken rq now t else t)) ++
      (if (db.tokens.filter (rotateWhere d.userId)).length == 0 then
        [loginNewRow db.nextTokenId d.userId d.refreshToken rq now] else []) ∧
    db'.users = db.users.map (fun u =>
      if u.mobileNumber == rq.mobileNumber then { u with lastLoginAt := some now }
      else u) ∧
    db'.roles = db.roles ∧
    db'.nextUserId = db.nextUserId ∧
    ∃ extra, db'.userRoles = db.userRoles ++ extra := by
  obtain ⟨u, rs, hf, he, hfin⟩ := login_ok_elim h
  unfold loginFinish at hfin
  cases hrs : loginRoleStep db u rs rq.roleName with
  | error e => rw [hrs] at hfin; simp at hfin
  | ok p =>
    obtain ⟨a, db1⟩ := p
    rw [hrs] at hfin
    obtain ⟨ht, hu, hr, hnt, hnu, extra, hur⟩ := loginRoleStep_frame hrs
    rw [Prod.mk.injEq, Except.ok.injEq] at hfin
    obtain ⟨hd, hdb⟩ := hfin
    subst hd
    subst hdb
    refine ⟨rfl, rfl, ⟨u, rs, hf, rfl, he⟩, ?_, ?_, ?_, ?_, extra, ?_⟩ <;>
      simp [loginRotate, loginCreateToken, tokenUpdate, tokenCreate,
        touchLastLogin, ht, hu, hr, hnt, hnu, hur, loginNewRow,
        generateRefreshToken] <;>
      split <;> simp [tokenCreate, hnt, ht, hu, hr, hnu, hur]

/-- Full description of the state and payload a successful switch-role
produces, in terms of the pre-state. -/
theorem switch_ok_shape {db : DB} {user : AuthUser} {rn ua ip : String}
    {now : Nat} {d : SwitchData} {db' : DB}
    (h : switchRole db user rn ua ip now = (.ok d, db')) :
    d = ⟨user.userId, user.role, rn, generateAccessToken user.userId rn now,
         generateRefreshToken user.userId rn now⟩ ∧
    validClientRoles.contains rn = true ∧
    (∃ r, user.roles.find? (fun r2 => r2.roleName == rn) = some r) ∧
    (user.role == rn) = false ∧
    db'.tokens =
      (db.tokens.map (fun t =>
        if rotateWhere user.userId t then
          switchRotFn (generateRefreshToken user.userId rn now) now t
        else t)) ++
      (if (db.tokens.filter (rotateWhere user.userId)).length == 0 then
        [switchNewRow db.nextTokenId user.userId
          (generateRefreshToken user.userId rn now) ua ip now] else []) ∧
    db'.users = db.users ∧ db'.userRoles = db.userRoles ∧
    db'.roles = db.roles ∧ db'.nextUserId = db.nextUserId := by
  unfold switchRole at h
  split at h
  · simp at h
  · split at h
    · simp at h
    · rename_i hval
      cases hfind : user.roles.find? (fun r2 => r2.roleName == rn) with
      | none => rw [hfind] at h; simp at h
      | some r =>
        rw [hfind] at h
        cases hact : user.role == rn with
        | true => rw [if_pos hact] at h; simp at h
        | false =>
          rw [if_neg (by simp [hact])] at h
          rw [Prod.mk.injEq, Except.ok.injEq] at h
          obtain ⟨hd, hdb⟩ := h
          subst hd
          subst hdb
          refine ⟨rfl, by simpa using hval, ⟨r, rfl⟩, rfl, ?_, ?_, ?_, ?_, ?_⟩ <;>
            simp [switchRotate, switchCreateToken, tokenUpdate, tokenCreate] <;>
            split <;> simp [tokenCreate]

theorem verifyRefreshToken_fst {db : DB} {tok : RToken} {now : Nat}
    {p : RToken × TokenRec} (h : verifyRefreshToken db tok now = some p) :
    p.1 = tok := by
  unfold verifyRefreshToken at h
  cases hf : db.tokens.find?
      (fun t => t.refreshToken == tok && t.isActive && decide (now < t.expiresAt)) with
  | none => rw [hf] at h; simp at h
  | some rec => rw [hf] at h; rw [Option.some.injEq] at h; subst h; rfl

/-- Full description of the state and payload a successful refresh produces,
in terms of the pre-state. -/
theorem refresh_ok_shape {db : DB} {auth : Option RToken} {now : Nat}
    {d : RefreshData} {db' : DB}
    (h : refreshAccessToken db auth now = (.ok d, db')) :
    ∃ rt tokenRecord u rs,
      auth = some rt ∧
      verifyRefreshToken db rt now = some (rt, tokenRecord) ∧
      findActiveUserById db rt.sub = some (u, rs) ∧
      rs.isEmpty = false ∧
      d.userId = u.userId ∧
      d.role = (if rt.role != "" && rs.any (fun r => r.roleName == rt.role)
        then rt.role else headRoleName rs) ∧
      d.accessToken = generateAccessToken u.userId d.role now ∧
      db'.tokens = db.tokens.map (fun t =>
        if t.tokenId == tokenRecord.tokenId then { t with lastUsedAt := some now }
        else t) ∧
      db'.users = db.users ∧ db'.userRoles = db.userRoles ∧
      db'.roles = db.roles ∧ db'.nextUserId = db.nextUserId ∧
      db'.nextTokenId = db.nextTokenId := by
  cases auth with
  | none => simp [refreshAccessToken] at h
  | some rt =>
    simp only [refreshAccessToken] at h
    split at h
    · simp at h
    · rename_i dec rec hv
      have hfst : dec = rt := by simpa using verifyRefreshToken_fst hv
      subst hfst
      split at h
      · simp at h
      · rename_i u rs hu
        split at h
        · simp at h
        · rename_i hne
          rw [Prod.mk.injEq, Except.ok.injEq] at h
          obtain ⟨hd, hdb⟩ := h
          subst hd
          subst hdb
          exact ⟨dec, rec, u, rs, rfl, hv, hu, by simpa using hne, rfl, rfl,
            rfl, by simp [tokenUpdate], rfl, rfl, rfl, rfl, rfl⟩

/-- Full description of the state and payload a successful signup produces,
in terms of the pre-state. -/
theorem signup_ok_shape {db : DB} {rq : SignupReq} {now : Nat}
    {d : SignupData} {db' : DB} (h : signup db rq now = (.ok d, db')) :
    ∃ roleRecord,
      signupRoleLookup db rq = some roleRecord ∧
      d = ⟨db.nextUserId, roleRecord.roleName,
           generateAccessToken db.nextUserId roleRecord.roleName now,
           generateRefreshToken db.nextUserId roleRecord.roleName now⟩ ∧
      db'.tokens = db.tokens ++
        [⟨db.nextTokenId, db.nextUserId, d.refreshToken, calculateExpiryDate now,
          strOrNull rq.deviceId, strOrNull rq.userAgent, strOrNull rq.ip,
          true, none, none⟩] ∧
      db'.users = db.users ++
        [⟨db.nextUserId, rq.mobileNumber, rq.email, rq.firstName, rq.lastName,
          strOrNull rq.reraNumber, "client", true, none⟩] ∧
      db'.userRoles = db.userRoles ++ [⟨db.nextUserId, roleRecord.roleId, none⟩] ∧
      db'.roles = db.roles ∧
      db'.nextUserId = db.nextUserId + 1 ∧
      db'.nextTokenId = db.nextTokenId + 1 := by
  unfold signup at h
  cases hv : signupValidate rq with
  | some e => rw [hv] at h; simp at h
  | none =>
    rw [hv] at h
    cases ho : verifyOtp rq.providerResp with
    | error e => rw [ho] at h; simp at h
    | ok v =>
      rw [ho] at h
      cases hc : signupLookupError db rq with
      | some e => rw [hc] at h; simp at h
      | none =>
        rw [hc] at h
        cases hr : signupRoleLookup db rq with
        | none => rw [hr] at h; simp at h
        | some roleRecord =>
          rw [hr] at h
          unfold signupTail at h
          rw [Prod.mk.injEq, Except.ok.injEq] at h
          obtain ⟨hd, hdb⟩ := h
          subst hd
          subst hdb
          exact ⟨roleRecord, rfl, rfl, by simp [tokenCreate], by simp [tokenCreate],
            by simp [tokenCreate], rfl, rfl, by simp [tokenCreate]⟩

/-! ## C5: the OTP verification taxonomy -/

/-- C5: `verifyOtp` maps provider response codes to the spec's closed set of
outcomes (invalid code, expired challenge, exhausted attempt budget, other
non-success, verified), and succeeds exactly when the response carries both
the success status code and the explicit completion status — fail-closed. -/
theorem c5_verify_otp_closed_taxonomy (resp : ProviderVerifyResp) :
    verifyOtp resp = otpExpected resp ∧
    (verifyOtp resp = .ok () ↔
      resp.responseCode = 200 ∧
      resp.verificationStatus = some "VERIFICATION_COMPLETED") := by
  rcases resp with ⟨c, vs, m⟩
  by_cases h1 : c = 702 <;> by_cases h2 : c = 705 <;> by_cases h3 : c = 800 <;>
    by_cases h4 : c = 200 <;>
    by_cases h5 : vs = some "VERIFICATION_COMPLETED" <;>
    simp [verifyOtp, otpExpected, classifyOtpSpec, h1, h2, h3, h4, h5]

/-! ## C7: failed OTP verification leaves the state untouched -/

/-- C7: for every login attempt in which OTP verification fails, login
performs no persistence write — the database state is returned unchanged (so
no token row is created or rotated, no role assignment is created, and the
last-login timestamp is untouched) and the request fails. -/
theorem c7_login_otp_failure_no_write (db : DB) (rq : LoginReq) (now : Nat)
    (e : AppErr) (h : verifyOtp rq.providerResp = .error e) :
    (login db rq now).2 = db ∧
    (login db rq now).2.tokens = db.tokens ∧
    (login db rq now).2.userRoles = db.userRoles ∧
    (login db rq now).2.users = db.users ∧
    ∃ e2, (login db rq now).1 = .error e2 := by
  cases hv : loginValidate rq with
  | some e2 => exact ⟨by simp [login, hv], by simp [login, hv],
      by simp [login, hv], by simp [login, hv], e2, by simp [login, hv]⟩
  | none => exact ⟨by simp [login, hv, h], by simp [login, hv, h],
      by simp [login, hv, h], by simp [login, hv, h], e, by simp [login, hv, h]⟩

/-! ## C4: refresh mints an access token only -/

/-- C4: on every successful refresh only a new access token is minted: every
stored refresh-token row keeps its token string, expiry, active flag, device
and owner; at most the last-used timestamp moves to `now`; no row is added or
removed; the rest of the database is untouched; and the response `data`
carries an access token but no refresh token. -/
theorem c4_refresh_is_access_only (db : DB) (auth : Option RToken) (now : Nat)
    (d : RefreshData) (db' : DB)
    (h : refreshAccessToken db auth now = (.ok d, db')) :
    (∀ t ∈ db.tokens, ∃ t2 ∈ db'.tokens,
      t2.tokenId = t.tokenId ∧ t2.refreshToken = t.refreshToken ∧
      t2.expiresAt = t.expiresAt ∧ t2.isActive = t.isActive ∧
      t2.deviceId = t.deviceId ∧ t2.userId = t.userId ∧
      (t2.lastUsedAt = t.lastUsedAt ∨ t2.lastUsedAt = some now)) ∧
    db'.tokens.length = db.tokens.length ∧
    (∃ tokenRecord : TokenRec, db'.tokens = db.tokens.map (fun t =>
      if t.tokenId == tokenRecord.tokenId then { t with lastUsedAt := some now }
      else t)) ∧
    db'.users = db.users ∧ db'.userRoles = db.userRoles ∧
    "accessToken" ∈ refreshDataKeys ∧ "refreshToken" ∉ refreshDataKeys := by
  obtain ⟨rt, tokenRecord, u, rs, ha, hv, hu, he, hid, hrole2, hat, htok, husers,
    hur, hroles, hnu, hnt⟩ := refresh_ok_shape h
  refine ⟨?_, ?_, ?_, husers, hur, by decide, by decide⟩
  · intro t ht
    refine ⟨(if t.tokenId == tokenRecord.tokenId then { t with lastUsedAt := some now }
      else t), ?_, ?_⟩
    · rw [htok]; exact List.mem_map_of_mem _ ht
    · by_cases hc : (t.tokenId == tokenRecord.tokenId) = true
      · rw [if_pos hc]
        exact ⟨rfl, rfl, rfl, rfl, rfl, rfl, Or.inr rfl⟩
      · rw [if_neg hc]
        exact ⟨rfl, rfl, rfl, rfl, rfl, rfl, Or.inl rfl⟩
  · rw [htok, List.length_map]
  · exact ⟨tokenRecord, htok⟩

/-! ## C9: refresh role selection -/

/-- C9: on a successful refresh, the role used for the newly minted access
token is the role embedded in the verified refresh token's claims when the
user still holds it among their active roles, and otherwise the user's first
active role on record. -/
theorem c9_refresh_role_selection (db : DB) (tok : RToken) (now : Nat)
    (d : RefreshData) (db' : DB) (u : UserRec) (rs : List RoleRec)
    (h : refreshAccessToken db (some tok) now = (.ok d, db'))
    (hrole : tok.role ≠ "")
    (hu : findActiveUserById db tok.sub = some (u, rs)) :
    d.role = (if rs.any (fun r => r.roleName == tok.role) then tok.role
      else headRoleName rs) ∧
    d.userId = u.userId ∧
    d.accessToken = generateAccessToken u.userId d.role now := by
  obtain ⟨rt, tokenRecord, u2, rs2, ha, hv, hu2, he, hid, hrd, hat, _⟩ :=
    refresh_ok_shape h
  rw [Option.some.injEq] at ha
  subst ha
  rw [hu] at hu2
  rw [Option.some.injEq, Prod.mk.injEq] at hu2
  obtain ⟨hueq, hrseq⟩ := hu2
  subst hueq
  subst hrseq
  refine ⟨?_, hid, hat⟩
  rw [hrd]
  have hne : (tok.role != "") = true := by simpa using hrole
  simp [hne]

/-! ## C10: login ignores a supplied role for non-client accounts -/

/-- C10: in login, the role-selection and auto-grant branch applies only to
accounts of type "client": for any other account a supplied role name —
however invalid — is silently ignored: login still succeeds, no role
assignment is created, the requested role is never validated, and the access
token is bound to the user's first active role on record. -/
theorem c10_login_role_ignored_for_non_client (db : DB) (rq : LoginReq)
    (now : Nat) (u : UserRec) (rs : List RoleRec)
    (hval : loginValidate rq = none)
    (hotp : verifyOtp rq.providerResp = .ok ())
    (hfind : findActiveUserByMobile db rq.mobileNumber = some (u, rs))
    (hne : rs.isEmpty = false)
    (htype : u.userType ≠ "client") :
    (login db rq now).2.userRoles = db.userRoles ∧
    ((login db rq now).1).isOk = true ∧
    (∀ d, (login db rq now).1 = .ok d →
      d.role = headRoleName rs ∧
      d.accessToken = generateAccessToken u.userId (headRoleName rs) now) := by
  have hcl : (u.userType == "client") = false := by
    simpa using htype
  have hstep : loginRoleStep db u rs rq.roleName = .ok (headRoleName rs, db) := by
    unfold loginRoleStep
    rw [if_neg (by simp [hcl])]
  have hlogin : login db rq now = loginFinish db rq u rs now := by
    simp [login, hval, hotp, hfind, hne]
  rw [hlogin]
  unfold loginFinish
  rw [hstep]
  refine ⟨?_, rfl, ?_⟩
  · simp only [loginRotate, tokenUpdate, touchLastLogin, loginCreateToken,
      tokenCreate]
    split <;> rfl
  · intro d hd
    rw [Except.ok.injEq] at hd
    rw [← hd]
    exact ⟨rfl, rfl⟩

/-! ## C3: signup uniqueness via one combined lookup -/

/-- C3: signup's uniqueness check is the single combined lookup
`db.users.find? (signupWhere rq)` over the disjunction of the supplied
identifiers; when it finds a colliding user the Conflict error names the
colliding field with priority email before mobile number before registration
number — in particular a collision on the mobile number alone yields 409
"Mobile number already exists" — and when it finds nothing no 409 is ever
produced. -/
theorem c3_signup_combined_uniqueness (db : DB) (rq : SignupReq) (now : Nat)
    (hval : signupValidate rq = none)
    (hotp : verifyOtp rq.providerResp = .ok ()) :
    (∀ ex, db.users.find? (signupWhere rq) = some ex →
      (ex.email = rq.email →
        signup db rq now = (.error ⟨"Email already exists", 409⟩, db)) ∧
      (ex.email ≠ rq.email → ex.mobileNumber = rq.mobileNumber →
        signup db rq now = (.error ⟨"Mobile number already exists", 409⟩, db)) ∧
      (ex.email ≠ rq.email → ex.mobileNumber ≠ rq.mobileNumber →
        rq.reraNumber ≠ "" → ex.reraNumber = some rq.reraNumber →
        signup db rq now = (.error ⟨"Rera number already exists", 409⟩, db))) ∧
    (db.users.find? (signupWhere rq) = none →
      ∀ e, (signup db rq now).1 = .error e → e.statusCode ≠ 409) := by
  constructor
  · intro ex hex
    have hlk : signupLookupError db rq = signupConflict rq ex := by
      simp [signupLookupError, hex]
    refine ⟨?_, ?_, ?_⟩
    · intro he
      have hc : signupConflict rq ex = some ⟨"Email already exists", 409⟩ := by
        simp [signupConflict, he]
      simp [signup, hval, hotp, hlk, hc]
    · intro he hm
      have hc : signupConflict rq ex = some ⟨"Mobile number already exists", 409⟩ := by
        simp [signupConflict, he, hm]
      simp [signup, hval, hotp, hlk, hc]
    · intro he hm hr1 hr2
      have hc : signupConflict rq ex = some ⟨"Rera number already exists", 409⟩ := by
        simp [signupConflict, he, hm, hr1, hr2]
      simp [signup, hval, hotp, hlk, hc]
  · intro hnone e he
    have hlk : signupLookupError db rq = none := by
      simp [signupLookupError, hnone]
    cases hr : signupRoleLookup db rq with
    | none =>
        simp [signup, hval, hotp, hlk, hr] at he
        rw [← he]
        decide
    | some roleRecord =>
        simp [signup, hval, hotp, hlk, hr, signupTail] at he

/-- After a rotate-or-create step, the user owns an active row holding the
newly minted token: either some row matched the rotate predicate and was
rewritten, or the fallback row was created. -/
theorem exists_active_after_rotate_create (l : List TokenRec) (uid : Nat)
    (g : TokenRec → TokenRec) (row : TokenRec) (rtok : RToken)
    (hg_id : ∀ t, (g t).userId = t.userId)
    (hg_act : ∀ t, rotateWhere uid t = true → (g t).isActive = true)
    (hg_tok : ∀ t, (g t).refreshToken = rtok)
    (hrow_id : row.userId = uid) (hrow_act : row.isActive = true)
    (hrow_tok : row.refreshToken = rtok) :
    ∃ t ∈ (l.map (fun t => if rotateWhere uid t then g t else t)) ++
      (if (l.filter (rotateWhere uid)).length == 0 then [row] else []),
      t.userId = uid ∧ t.isActive = true ∧ t.refreshToken = rtok := by
  cases hc : ((l.filter (rotateWhere uid)).length == 0) with
  | true =>
      refine ⟨row, ?_, hrow_id, hrow_act, hrow_tok⟩
      exact List.mem_append_right _ (by simp)
  | false =>
      have hlen : (l.filter (rotateWhere uid)).length ≠ 0 := by simpa using hc
      have hnil : l.filter (rotateWhere uid) ≠ [] := by
        intro hn; exact hlen (by rw [hn]; rfl)
      obtain ⟨x, hx⟩ := List.exists_mem_of_ne_nil _ hnil
      have hxl : x ∈ l := List.mem_of_mem_filter hx
      have hpx : rotateWhere uid x = true := List.of_mem_filter hx
      refine ⟨g x, ?_, ?_, hg_act x hpx, hg_tok x⟩
      · exact List.mem_append_left _
          (List.mem_map.mpr ⟨x, hxl, by rw [if_pos hpx]⟩)
      · rw [hg_id]
        simp [rotateWhere] at hpx
        exact hpx.1

/-! ## C6: switch-role policy -/

/-- C6: switch-role is restricted to the switchable client roles and never
touches role assignments; a client role the caller does not hold fails 403
Forbidden; naming the currently active role fails with a 4xx client error,
never silently succeeding; and naming a held, different client role succeeds,
returning the previous and new active role with an access token and a
rotated-or-created refresh token bound to the new role. -/
theorem c6_switch_role_policy (db : DB) (user : AuthUser) (rn ua ip : String)
    (now : Nat) :
    (switchRole db user rn ua ip now).2.userRoles = db.userRoles ∧
    (rn ≠ "" → validClientRoles.contains rn = false →
      (switchRole db user rn ua ip now).1 =
        .error ⟨"Only client roles (Owner, Broker, Investor) can be switched", 400⟩) ∧
    (validClientRoles.contains rn = true →
      user.roles.find? (fun r => r.roleName == rn) = none →
      ∃ e, (switchRole db user rn ua ip now).1 = .error e ∧ e.statusCode = 403) ∧
    (validClientRoles.contains rn = true → user.role = rn →
      ∃ e, (switchRole db user rn ua ip now).1 = .error e ∧
        400 ≤ e.statusCode ∧ e.statusCode < 500) ∧
    (∀ r, user.roles.find? (fun r2 => r2.roleName == rn) = some r →
      validClientRoles.contains rn = true → user.role ≠ rn →
      ∃ db', switchRole db user rn ua ip now =
        (.ok ⟨user.userId, user.role, rn,
              generateAccessToken user.userId rn now,
              generateRefreshToken user.userId rn now⟩, db') ∧
        ∃ t ∈ db'.tokens, t.userId = user.userId ∧ t.isActive = true ∧
          t.refreshToken = generateRefreshToken user.userId rn now) := by
  have hcontains_ne : validClientRoles.contains rn = true → (rn == "") = false := by
    intro h1
    cases hrn : (rn == "") with
    | false => rfl
    | true =>
        have : rn = "" := by simpa using hrn
        subst this
        simp [validClientRoles] at h1
  have herr : ∀ e db2, switchRole db user rn ua ip now = (.error e, db2) →
      db2 = db := by
    intro e db2 h
    unfold switchRole at h
    split at h
    · rw [Prod.mk.injEq] at h; exact h.2.symm
    · split at h
      · rw [Prod.mk.injEq] at h; exact h.2.symm
      · split at h
        · rw [Prod.mk.injEq] at h; exact h.2.symm
        · split at h
          · rw [Prod.mk.injEq] at h; exact h.2.symm
          · simp at h
  refine ⟨?_, ?_, ?_, ?_, ?_⟩
  · rcases hres : switchRole db user rn ua ip now with ⟨res, db2⟩
    cases res with
    | error e => rw [herr e db2 hres]
    | ok d =>
        obtain ⟨hd, hv2, hf2, ha2, htoks, hus, hur, hrl, hnu⟩ :=
          switch_ok_shape hres
        exact hur
  · intro h1 h2
    have hb : (rn == "") = false := by simpa using h1
    have hmem : rn ∉ validClientRoles := by simpa using h2
    simp [switchRole, hb, hmem]
  · intro h1 hf
    have hb : (rn == "") = false := hcontains_ne h1
    have hmem : rn ∈ validClientRoles := by simpa using h1
    exact ⟨⟨"You do not have the role '" ++ rn ++ "'. Available roles: " ++
      String.intercalate ", "
        ((user.roles.filter (fun r => validClientRoles.contains r.roleName)).map
          (fun r => r.roleName)), 403⟩,
      by simp [switchRole, hb, hmem, hf], rfl⟩
  · intro h1 h2
    have hb : (rn == "") = false := hcontains_ne h1
    have hmem : rn ∈ validClientRoles := by simpa using h1
    cases hf : user.roles.find? (fun r => r.roleName == rn) with
    | none =>
        exact ⟨⟨"You do not have the role '" ++ rn ++ "'. Available roles: " ++
          String.intercalate ", "
            ((user.roles.filter (fun r => validClientRoles.contains r.roleName)).map
              (fun r => r.roleName)), 403⟩,
          by simp [switchRole, hb, hmem, hf],
          by show (400:Nat) ≤ 403; norm_num, by show (403:Nat) < 500; norm_num⟩
    | some r =>
        exact ⟨⟨"'" ++ rn ++ "' is already your active role", 400⟩,
          by simp [switchRole, hb, hmem, hf, h2],
          by show (400:Nat) ≤ 400; norm_num, by show (400:Nat) < 500; norm_num⟩
  · intro r hf h1 h3
    have hb : (rn == "") = false := hcontains_ne h1
    have hmem : rn ∈ validClientRoles := by simpa using h1
    have hneq : (user.role == rn) = false := by simpa using h3
    have hsw : switchRole db user rn ua ip now =
        ((Except.ok ⟨user.userId, user.role, rn,
            generateAccessToken user.userId rn now,
            generateRefreshToken user.userId rn now⟩ : Except AppErr SwitchData),
          if (switchRotate db user.userId
              (generateRefreshToken user.userId rn now) now).1 == 0
          then switchCreateToken
            (switchRotate db user.userId
              (generateRefreshToken user.userId rn now) now).2
            user.userId (generateRefreshToken user.userId rn now) ua ip now
          else (switchRotate db user.userId
            (generateRefreshToken user.userId rn now) now).2) := by
      unfold switchRole
      rw [if_neg (by simp [hb]), if_neg (by simp [hmem]), hf,
        if_neg (by simp [hneq])]
    obtain ⟨hd, hval2, hfind2, hact2, htoks, _⟩ := switch_ok_shape hsw
    refine ⟨_, hsw, ?_⟩
    rw [htoks]
    exact exists_active_after_rotate_create db.tokens user.userId
      (switchRotFn (generateRefreshToken user.userId rn now) now)
      (switchNewRow db.nextTokenId user.userId
        (generateRefreshToken user.userId rn now) ua ip now)
      (generateRefreshToken user.userId rn now)
      (fun t => rfl)
      (fun t hp => by simp [rotateWhere] at hp; simpa [switchRotFn] using hp.2)
      (fun t => rfl) rfl rfl rfl

/-- `activeCountU` counts exactly the rows matched by the rotate
where-clause. -/
theorem activeCountU_filter (db : DB) (uid : Nat) :
    activeCountU db uid = (db.tokens.filter (rotateWhere uid)).length := rfl

/-! ## C2: the two-step rotate-or-create issuance policy -/

/-- C2: token issuance is rotate-or-create: the rotation only rewrites rows
matching `(userId, active=true)` — any other row survives untouched — a new
row is created exactly when the rotation matched zero rows, and after every
successful login, signup or switch-role the user owns at least one active
refresh-token row holding the newly minted token string. -/
theorem c2_rotate_or_create (db : DB) (now : Nat) :
    (∀ rq d db', login db rq now = (.ok d, db') →
      (∃ t ∈ db'.tokens, t.userId = d.userId ∧ t.isActive = true ∧
        t.refreshToken = d.refreshToken) ∧
      (∀ t ∈ db.tokens, rotateWhere d.userId t = false → t ∈ db'.tokens) ∧
      db'.tokens.length = db.tokens.length +
        (if activeCountU db d.userId = 0 then 1 else 0)) ∧
    (∀ rq d db', signup db rq now = (.ok d, db') →
      ∃ t ∈ db'.tokens, t.userId = d.userId ∧ t.isActive = true ∧
        t.refreshToken = d.refreshToken) ∧
    (∀ user rn ua ip d db', switchRole db user rn ua ip now = (.ok d, db') →
      (∃ t ∈ db'.tokens, t.userId = user.userId ∧ t.isActive = true ∧
        t.refreshToken = d.refreshToken) ∧
      (∀ t ∈ db.tokens, rotateWhere user.userId t = false → t ∈ db'.tokens) ∧
      db'.tokens.length = db.tokens.length +
        (if activeCountU db user.userId = 0 then 1 else 0)) := by
  refine ⟨?_, ?_, ?_⟩
  · intro rq d db' h
    obtain ⟨hrt, hat, hfound, htoks, husers, hroles, hnu, extra, hur⟩ :=
      login_ok_shape h
    refine ⟨?_, ?_, ?_⟩
    · rw [htoks, hrt]
      exact exists_active_after_rotate_create db.tokens d.userId
        (loginRotFn (generateRefreshToken d.userId d.role now) rq now)
        (loginNewRow db.nextTokenId d.userId
          (generateRefreshToken d.userId d.role now) rq now)
        (generateRefreshToken d.userId d.role now)
        (fun t => rfl) (fun t _ => rfl) (fun t => rfl) rfl rfl rfl
    · intro t ht hfalse
      rw [htoks]
      exact List.mem_append_left _
        (List.mem_map.mpr ⟨t, ht, by rw [if_neg (by simp [hfalse])]⟩)
    · rw [htoks, List.length_append, List.length_map, activeCountU_filter]
      cases hc : ((db.tokens.filter (rotateWhere d.userId)).length == 0) with
      | true =>
          have h0 : (db.tokens.filter (rotateWhere d.userId)).length = 0 := by
            simpa using hc
          simp [h0]
      | false =>
          have h0 : (db.tokens.filter (rotateWhere d.userId)).length ≠ 0 := by
            simpa using hc
          simp [h0]
  · intro rq d db' h
    obtain ⟨roleRecord, hlook, hd, htoks, _⟩ := signup_ok_shape h
    subst hd
    refine ⟨⟨db.nextTokenId, db.nextUserId,
      generateRefreshToken db.nextUserId roleRecord.roleName now,
      calculateExpiryDate now, strOrNull rq.deviceId, strOrNull rq.userAgent,
      strOrNull rq.ip, true, none, none⟩, ?_, rfl, rfl, rfl⟩
    rw [htoks]
    exact List.mem_append_right _ (by simp)
  · intro user rn ua ip d db' h
    obtain ⟨hd, hv2, hf2, ha2, htoks, hus, hur, hrl, hnu⟩ := switch_ok_shape h
    subst hd
    refine ⟨?_, ?_, ?_⟩
    · rw [htoks]
      exact exists_active_after_rotate_create db.tokens user.userId
        (switchRotFn (generateRefreshToken user.userId rn now) now)
        (switchNewRow db.nextTokenId user.userId
          (generateRefreshToken user.userId rn now) ua ip now)
        (generateRefreshToken user.userId rn now)
        (fun t => rfl)
        (fun t hp => by simp [rotateWhere] at hp; simpa [switchRotFn] using hp.2)
        (fun t => rfl) rfl rfl rfl
    · intro t ht hfalse
      rw [htoks]
      exact List.mem_append_left _
        (List.mem_map.mpr ⟨t, ht, by rw [if_neg (by simp [hfalse])]⟩)
    · rw [htoks, List.length_append, List.length_map, activeCountU_filter]
      cases hc : ((db.tokens.filter (rotateWhere user.userId)).length == 0) with
      | true =>
          have h0 : (db.tokens.filter (rotateWhere user.userId)).length = 0 := by
            simpa using hc
          simp [h0]
      | false =>
          have h0 : (db.tokens.filter (rotateWhere user.userId)).length ≠ 0 := by
            simpa using hc
          simp [h0]

/-! ## C8: revocation semantics -/

/-- After a revocation pass, no row holding the revoked token string is still
active. -/
theorem revoke_deactivates (db : DB) (tok : RToken) (reason : String) :
    ∀ t ∈ (revokeToken db tok reason).2.tokens,
      (t.refreshToken == tok && t.isActive) = false := by
  intro t ht
  simp only [revokeToken] at ht
  obtain ⟨s, hs, hst⟩ := List.mem_map.mp ht
  by_cases hp : (s.refreshToken == tok && s.isActive) = true
  · rw [if_pos hp] at hst
    subst hst
    simp
  · rw [if_neg hp] at hst
    subst hst
    simpa using hp

/-- A user on a fixture database: a single token row revoked by a logout. -/
def tokW : RToken := ⟨0, "Broker", 0⟩

/-- Fixture: one user holding one active refresh-token row for `tokW`. -/
def dbTokActive : DB :=
  { users := [⟨0, "9876543210", "a@x.com", "A", "B", none, "client", true, none⟩],
    roles := [⟨0, "Broker", "client", true⟩, ⟨1, "Owner", "client", true⟩],
    userRoles := [⟨0, 0, none⟩],
    tokens := [⟨0, 0, tokW, 100, some "d1", none, none, true, none, none⟩],
    nextUserId := 1, nextTokenId := 1 }

/-- Fixture: the same database after logging `tokW` out. -/
def dbTokRevoked : DB :=
  { users := [⟨0, "9876543210", "a@x.com", "A", "B", none, "client", true, none⟩],
    roles := [⟨0, "Broker", "client", true⟩, ⟨1, "Owner", "client", true⟩],
    userRoles := [⟨0, 0, none⟩],
    tokens := [⟨0, 0, tokW, 100, some "d1", none, none, false, none, some "logout"⟩],
    nextUserId := 1, nextTokenId := 1 }

/-- C8 counterexample: presenting an already-revoked refresh token to logout
fails with status 400, not 409 — so the claim that a previously logged-out
token "presented to logout again fails with Conflict" is false on the code. -/
theorem c8_counterexample :
    (logout dbTokRevoked (some tokW)).1 =
      .error ⟨"Token not found or already revoked", 400⟩ ∧
    (400 : Nat) ≠ 409 := ⟨rfl, by decide⟩

/-- C8 amended: revocation succeeds exactly for a token string matching an
existing active row; logout of an already-inactive or unknown token is
surfaced as a 400 client error — not a server error nor a silent success —
and a logged-out refresh token presented to refresh fails 401 Unauthorized. -/
theorem c8_revoked_token_client_error (db db1 : DB) (tok : RToken) (now : Nat)
    (h : logout db (some tok) = (.ok (), db1)) :
    ((revokeToken db tok "logout").1 = true ↔
      ∃ t ∈ db.tokens, t.refreshToken = tok ∧ t.isActive = true) ∧
    (logout db1 (some tok)).1 =
      .error ⟨"Token not found or already revoked", 400⟩ ∧
    (refreshAccessToken db1 (some tok) now).1 =
      .error ⟨"Invalid or expired refresh token", 401⟩ := by
  have hdb1 : db1 = (revokeToken db tok "logout").2 := by
    simp only [logout] at h
    split at h
    · rw [Prod.mk.injEq] at h
      exact h.2.symm
    · simp at h
  have hdead : ∀ t ∈ db1.tokens, (t.refreshToken == tok && t.isActive) = false := by
    rw [hdb1]
    exact revoke_deactivates db tok "logout"
  refine ⟨?_, ?_, ?_⟩
  · simp [revokeToken, List.any_eq_true]
  · have hany : db1.tokens.any (fun t => t.refreshToken == tok && t.isActive) = false := by
      rw [List.any_eq_false]
      intro t ht
      simp [hdead t ht]
    simp [logout, revokeToken, hany]
  · have hfind : db1.tokens.find?
        (fun t => t.refreshToken == tok && t.isActive && decide (now < t.expiresAt)) = none := by
      rw [List.find?_eq_none]
      intro t ht
      simp only [Bool.and_eq_true, not_and]
      intro hcontra
      rw [← Bool.and_eq_true] at hcontra
      rw [hdead t ht] at hcontra
      simp at hcontra
    have hv : verifyRefreshToken db1 tok now = none := by
      simp [verifyRefreshToken, hfind]
    simp [refreshAccessToken, hv]

/-! ## C1: at most one active refresh-token row per (user, device) -/

theorem length_filter_mono {α : Type} (l : List α) (p q : α → Bool)
    (h : ∀ a, q a = true → p a = true) :
    (l.filter q).length ≤ (l.filter p).length := by
  induction l with
  | nil => simp
  | cons a l ih =>
      by_cases hq : q a = true
      · rw [List.filter_cons_of_pos hq, List.filter_cons_of_pos (h a hq)]
        simpa using ih
      · rw [List.filter_cons_of_neg hq]
        by_cases hp : p a = true
        · rw [List.filter_cons_of_pos hp]
          exact le_trans ih (by simp)
        · rw [List.filter_cons_of_neg hp]
          exact ih

/-- Per-device active rows are no more numerous than per-user active rows. -/
theorem activeCountUD_le_activeCountU (db : DB) (uid : Nat) (dev : Option String) :
    activeCountUD db uid dev ≤ activeCountU db uid := by
  apply length_filter_mono
  intro a ha
  simp only [Bool.and_eq_true] at ha ⊢
  exact ⟨ha.1.1, ha.2⟩

/-- How a successful login changes each user's number of active token rows:
rotation preserves the count, and the fallback create adds one exactly when
the logging-in user had none. -/
theorem login_activeCountU {db : DB} {rq : LoginReq} {now : Nat}
    {d : LoginData} {db' : DB} (h : login db rq now = (.ok d, db')) (v : Nat) :
    activeCountU db' v = activeCountU db v +
      (if activeCountU db d.userId = 0 ∧ v = d.userId then 1 else 0) := by
  obtain ⟨hrt, hat, hfound, htoks, husers, hroles, hnu, extra, hur⟩ :=
    login_ok_shape h
  show (db'.tokens.filter (fun t => t.userId == v && t.isActive)).length = _
  rw [htoks, List.filter_append, List.length_append]
  have hmap : ((db.tokens.map (fun t =>
      if rotateWhere d.userId t then loginRotFn d.refreshToken rq now t else t)).filter
      (fun t => t.userId == v && t.isActive)).length =
      (db.tokens.filter (fun t => t.userId == v && t.isActive)).length := by
    apply length_filter_map_eq
    intro a
    by_cases hp : rotateWhere d.userId a = true
    · rw [if_pos hp]
      have ha : a.isActive = true := by
        simp [rotateWhere] at hp
        exact hp.2
      simp [loginRotFn, ha]
    · rw [if_neg hp]
  rw [hmap, activeCountU_filter db d.userId]
  cases hc : ((db.tokens.filter (rotateWhere d.userId)).length == 0) with
  | true =>
      have h0 : (db.tokens.filter (rotateWhere d.userId)).length = 0 := by
        simpa using hc
      rw [h0]
      by_cases hv : v = d.userId
      · subst hv
        simp [loginNewRow, List.filter, activeCountU]
      · have : (d.userId == v) = false := by
          simp
          exact fun hcc => hv hcc.symm
        simp [loginNewRow, List.filter, this, hv, activeCountU]
  | false =>
      have h0 : ¬((db.tokens.filter (rotateWhere d.userId)).length = 0) := by
        simpa using hc
      rw [if_neg (by simp [h0])]
      simp [h0, activeCountU]

/-- The analogous count bookkeeping for switch-role. -/
theorem switch_activeCountU {db : DB} {user : AuthUser} {rn ua ip : String}
    {now : Nat} {d : SwitchData} {db' : DB}
    (h : switchRole db user rn ua ip now = (.ok d, db')) (v : Nat) :
    activeCountU db' v = activeCountU db v +
      (if activeCountU db user.userId = 0 ∧ v = user.userId then 1 else 0) := by
  obtain ⟨hd, hv2, hf2, ha2, htoks, hus, hur, hrl, hnu⟩ := switch_ok_shape h
  show (db'.tokens.filter (fun t => t.userId == v && t.isActive)).length = _
  rw [htoks, List.filter_append, List.length_append]
  have hmap : ((db.tokens.map (fun t =>
      if rotateWhere user.userId t then
        switchRotFn (generateRefreshToken user.userId rn now) now t else t)).filter
      (fun t => t.userId == v && t.isActive)).length =
      (db.tokens.filter (fun t => t.userId == v && t.isActive)).length := by
    apply length_filter_map_eq
    intro a
    by_cases hp : rotateWhere user.userId a = true
    · rw [if_pos hp]; rfl
    · rw [if_neg hp]
  rw [hmap, activeCountU_filter db user.userId]
  cases hc : ((db.tokens.filter (rotateWhere user.userId)).length == 0) with
  | true =>
      have h0 : (db.tokens.filter (rotateWhere user.userId)).length = 0 := by
        simpa using hc
      rw [h0]
      by_cases hv : v = user.userId
      · subst hv
        simp [switchNewRow, List.filter, activeCountU]
      · have : (user.userId == v) = false := by
          simp
          exact fun hcc => hv hcc.symm
        simp [switchNewRow, List.filter, this, hv, activeCountU]
  | false =>
      have h0 : ¬((db.tokens.filter (rotateWhere user.userId)).length = 0) := by
        simpa using hc
      rw [if_neg (by simp [h0])]
      simp [h0, activeCountU]

theorem findActiveUserByMobile_elim {db : DB} {m : String} {u : UserRec}
    {rs : List RoleRec} (h : findActiveUserByMobile db m = some (u, rs)) :
    db.users.find? (fun v => v.mobileNumber == m && v.isActive) = some u := by
  unfold findActiveUserByMobile at h
  split at h
  · simp at h
  · rename_i u0 hf
    dsimp only at h
    split at h
    · simp at h
    · rw [Option.some.injEq, Prod.mk.injEq] at h
      rw [h.1] at hf
      exact hf

/-- The user a second login resolves after a first login is the same user:
the last-login touch preserves the lookup key and the identity. -/
theorem login_same_user {db : DB} {rq : LoginReq} {now : Nat} {d : LoginData}
    {db' : DB} (h : login db rq now = (.ok d, db'))
    {u2 : UserRec} {rs2 : List RoleRec}
    (hf2 : findActiveUserByMobile db' rq.mobileNumber = some (u2, rs2)) :
    u2.userId = d.userId := by
  obtain ⟨hrt, hat, ⟨u, rs, hf1, huid, hrs⟩, htoks, husers, _⟩ :=
    login_ok_shape h
  have h1 := findActiveUserByMobile_elim hf1
  have h2 := findActiveUserByMobile_elim hf2
  rw [husers, List.find?_map] at h2
  have hqf : ((fun v : UserRec => v.mobileNumber == rq.mobileNumber && v.isActive) ∘
      (fun u => if u.mobileNumber == rq.mobileNumber then
        { u with lastLoginAt := some now } else u)) =
      (fun v : UserRec => v.mobileNumber == rq.mobileNumber && v.isActive) := by
    funext a
    by_cases hm : (a.mobileNumber == rq.mobileNumber) = true
    · simp only [Function.comp]
      rw [if_pos hm]
    · simp only [Function.comp]
      rw [if_neg hm]
  rw [hqf, h1] at h2
  rw [Option.map_some'] at h2
  rw [Option.some.injEq] at h2
  rw [← h2]
  by_cases hm : (u.mobileNumber == rq.mobileNumber) = true
  · rw [if_pos hm]
    exact huid
  · rw [if_neg hm]
    exact huid

/-- Every active row of the logging-in user after a successful login holds
the newly minted token and the request's device id. -/
theorem login_active_rows {db : DB} {rq : LoginReq} {now : Nat} {d : LoginData}
    {db' : DB} (h : login db rq now = (.ok d, db')) :
    ∀ t ∈ db'.tokens, t.userId = d.userId → t.isActive = true →
      t.refreshToken = d.refreshToken ∧ t.deviceId = strOrNull rq.deviceId := by
  obtain ⟨hrt, hat, hfound, htoks, _⟩ := login_ok_shape h
  intro t ht huid hact
  rw [htoks] at ht
  rcases List.mem_append.mp ht with hmem | hmem
  · obtain ⟨x, hx, hfx⟩ := List.mem_map.mp hmem
    by_cases hp : rotateWhere d.userId x = true
    · rw [if_pos hp] at hfx
      subst hfx
      exact ⟨rfl, rfl⟩
    · rw [if_neg hp] at hfx
      subst hfx
      exact absurd (by simp [rotateWhere, huid, hact]) hp
  · by_cases hc : (((db.tokens.filter (rotateWhere d.userId)).length == 0) = true)
    · rw [if_pos hc] at hmem
      rw [List.mem_singleton] at hmem
      subst hmem
      exact ⟨rfl, rfl⟩
    · rw [if_neg hc] at hmem
      simp at hmem

/-- After two sequential logins for the same user, no stored row still holds
the first login's token string. -/
theorem login_twice_kills_first {db : DB} {rq : LoginReq} {now1 now2 : Nat}
    {d1 d2 : LoginData} {db1 db2 : DB}
    (h1 : login db rq now1 = (.ok d1, db1))
    (h2 : login db1 rq now2 = (.ok d2, db2))
    (hfresh : ∀ t ∈ db.tokens, t.refreshToken.iat < now1)
    (hne : now1 ≠ now2) :
    ∀ t ∈ db2.tokens, t.refreshToken ≠ d1.refreshToken := by
  obtain ⟨hrt1, hat1, hfound1, htoks1, husers1, _⟩ := login_ok_shape h1
  obtain ⟨hrt2, hat2, ⟨u2, rs2, hf2, huid2, hrs2⟩, htoks2, _⟩ := login_ok_shape h2
  have huid21 : d2.userId = d1.userId := by
    rw [← huid2]
    exact login_same_user h1 hf2
  have hne2 : d2.refreshToken ≠ d1.refreshToken := by
    rw [hrt1, hrt2]
    intro heq
    rw [generateRefreshToken, generateRefreshToken, RToken.mk.injEq] at heq
    exact hne heq.2.2.symm
  have hiat1 : d1.refreshToken.iat = now1 := by rw [hrt1]; rfl
  intro t ht
  rw [htoks2, huid21] at ht
  rcases List.mem_append.mp ht with hmem | hmem
  · obtain ⟨s, hs, hfs⟩ := List.mem_map.mp hmem
    by_cases hp2 : rotateWhere d1.userId s = true
    · rw [if_pos hp2] at hfs
      subst hfs
      exact hne2
    · rw [if_neg hp2] at hfs
      subst hfs
      rw [htoks1] at hs
      rcases List.mem_append.mp hs with hmem1 | hmem1
      · obtain ⟨x, hx, hfx⟩ := List.mem_map.mp hmem1
        by_cases hp1 : rotateWhere d1.userId x = true
        · rw [if_pos hp1] at hfx
          refine absurd ?_ hp2
          rw [← hfx]
          simp only [rotateWhere] at hp1 ⊢
          rw [Bool.and_eq_true] at hp1
          simp [loginRotFn, hp1.1]
        · rw [if_neg hp1] at hfx
          subst hfx
          intro heq
          have := hfresh x hx
          rw [heq, hiat1] at this
          exact absurd this (lt_irrefl now1)
      · by_cases hc : (((db.tokens.filter (rotateWhere d1.userId)).length == 0) = true)
        · rw [if_pos hc] at hmem1
          rw [List.mem_singleton] at hmem1
          refine absurd ?_ hp2
          rw [hmem1]
          simp [rotateWhere, loginNewRow]
        · rw [if_neg hc] at hmem1
          simp at hmem1
  · by_cases hc : (((db1.tokens.filter (rotateWhere d1.userId)).length == 0) = true)
    · rw [if_pos hc] at hmem
      rw [List.mem_singleton] at hmem
      rw [hmem]
      exact hne2
    · rw [if_neg hc] at hmem
      simp at hmem

/-- C1: at most one refresh-token row per (user, device) is active at a time.
From a state where every user owns at most one active row, login and
switch-role preserve that bound (hence the per-(user, device) bound); and two
sequential logins for the same user and device — the serialisation of the
claim's concurrent scenario — leave exactly one active row for that (user,
device) pair, every active row of that user holds the second token and the
request's device, the first token string survives in no row, and the first
token fails liveness verification at every instant. -/
theorem c1_one_active_per_user_device (db db1 db2 : DB) (rq : LoginReq)
    (now1 now2 : Nat) (d1 d2 : LoginData)
    (hInv : Inv db)
    (hfresh : ∀ t ∈ db.tokens, t.refreshToken.iat < now1)
    (hne : now1 ≠ now2)
    (h1 : login db rq now1 = (.ok d1, db1))
    (h2 : login db1 rq now2 = (.ok d2, db2)) :
    Inv db1 ∧ Inv db2 ∧
    (∀ uid dev, activeCountUD db2 uid dev ≤ 1) ∧
    activeCountUD db2 d1.userId (strOrNull rq.deviceId) = 1 ∧
    (∀ t ∈ db2.tokens, t.userId = d1.userId → t.isActive = true →
      t.refreshToken = d2.refreshToken ∧ t.deviceId = strOrNull rq.deviceId) ∧
    (∀ t ∈ db2.tokens, t.refreshToken ≠ d1.refreshToken) ∧
    (∀ n, isLive db2 d1.refreshToken n = false) ∧
    (∀ user rn ua ip dS dbS, switchRole db user rn ua ip now1 = (.ok dS, dbS) →
      Inv dbS ∧ ∀ uid dev, activeCountUD dbS uid dev ≤ 1) := by
  have hInv1 : Inv db1 := by
    intro v
    rw [login_activeCountU h1 v]
    by_cases hcase : activeCountU db d1.userId = 0 ∧ v = d1.userId
    · rw [if_pos hcase, hcase.2, hcase.1]
    · rw [if_neg hcase]
      simpa using hInv v
  have hUid1 : activeCountU db1 d1.userId = 1 := by
    rw [login_activeCountU h1 d1.userId]
    by_cases h0 : activeCountU db d1.userId = 0
    · simp [h0]
    · have hle := hInv d1.userId
      have : activeCountU db d1.userId = 1 := le_antisymm hle (Nat.pos_of_ne_zero h0)
      simp [this, h0]
  obtain ⟨hrt2, hat2, ⟨u2, rs2, hf2, huid2, hrs2⟩, _⟩ := login_ok_shape h2
  have huid21 : d2.userId = d1.userId := by
    rw [← huid2]
    exact login_same_user h1 hf2
  have hInv2 : Inv db2 := by
    intro v
    rw [login_activeCountU h2 v]
    by_cases hcase : activeCountU db1 d2.userId = 0 ∧ v = d2.userId
    · rw [if_pos hcase, hcase.2, hcase.1]
    · rw [if_neg hcase]
      simpa using hInv1 v
  have hUid2 : activeCountU db2 d1.userId = 1 := by
    rw [login_activeCountU h2 d1.userId, huid21, hUid1]
    simp
  refine ⟨hInv1, hInv2, ?_, ?_, ?_, ?_, ?_, ?_⟩
  · intro uid dev
    exact le_trans (activeCountUD_le_activeCountU db2 uid dev) (hInv2 uid)
  · apply le_antisymm
    · exact le_trans (activeCountUD_le_activeCountU db2 d1.userId _)
        (le_of_eq hUid2)
    · obtain ⟨hrt2b, hat2b, hfound2b, htoks2, _⟩ := login_ok_shape h2
      obtain ⟨t, ht, htu, hta, httok⟩ :=
        (by
          rw [htoks2, hrt2b]
          exact exists_active_after_rotate_create db1.tokens d2.userId
            (loginRotFn (generateRefreshToken d2.userId d2.role now2) rq now2)
            (loginNewRow db1.nextTokenId d2.userId
              (generateRefreshToken d2.userId d2.role now2) rq now2)
            (generateRefreshToken d2.userId d2.role now2)
            (fun t => rfl) (fun t _ => rfl) (fun t => rfl) rfl rfl rfl :
          ∃ t ∈ db2.tokens, t.userId = d2.userId ∧ t.isActive = true ∧
            t.refreshToken = generateRefreshToken d2.userId d2.role now2)
      have hdev := login_active_rows h2 t ht htu hta
      have hmemf : t ∈ db2.tokens.filter
          (fun t => t.userId == d1.userId && t.deviceId == strOrNull rq.deviceId &&
            t.isActive) := by
        refine List.mem_filter.mpr ⟨ht, ?_⟩
        rw [htu, huid21]
        simp [hdev.2, hta]
      have hpos : 0 < (db2.tokens.filter
          (fun t => t.userId == d1.userId && t.deviceId == strOrNull rq.deviceId &&
            t.isActive)).length :=
        List.length_pos.mpr (List.ne_nil_of_mem hmemf)
      exact hpos
  · intro t ht htu hta
    have := login_active_rows h2 t ht (by rw [htu, ← huid21]) hta
    exact this
  · exact login_twice_kills_first h1 h2 hfresh hne
  · intro n
    rw [isLive, List.any_eq_false]
    intro t ht
    have hdead := login_twice_kills_first h1 h2 hfresh hne t ht
    simp only [Bool.and_eq_true, not_and]
    intro hcontra
    exact absurd (by simpa using hcontra.1) hdead
  · intro user rn ua ip dS dbS hS
    have hSInv : Inv dbS := by
      intro v
      rw [switch_activeCountU hS v]
      by_cases hcase : activeCountU db user.userId = 0 ∧ v = user.userId
      · rw [if_pos hcase, hcase.2, hcase.1]
      · rw [if_neg hcase]
        simpa using hInv v
    exact ⟨hSInv, fun uid dev =>
      le_trans (activeCountUD_le_activeCountU dbS uid dev) (hSInv uid)⟩

/-! ## Concrete witness fixtures -/

/-- Fixture: a registered client user with one role and no token rows. -/
def dbW : DB :=
  { users := [⟨0, "9876543210", "a@x.com", "A", "B", none, "client", true, none⟩],
    roles := [⟨0, "Broker", "client", true⟩, ⟨1, "Owner", "client", true⟩],
    userRoles := [⟨0, 0, none⟩],
    tokens := [],
    nextUserId := 1, nextTokenId := 0 }

/-- Fixture: a well-formed login request with a verified OTP response. -/
def rqW : LoginReq :=
  { mobileNumber := "9876543210", otp := "1234", verificationId := "v",
    roleName := "", deviceId := "d1", userAgent := "ua", ip := "ip",
    providerResp := ⟨200, some "VERIFICATION_COMPLETED", none⟩ }

/-- The login data the first fixture login returns. -/
def d1W : LoginData :=
  ⟨0, "Broker", ["Broker"], ⟨0, "Broker", 1⟩, ⟨0, "Broker", 1⟩, "A B", "a@x.com"⟩

/-- The state after the first fixture login. -/
def db1W : DB :=
  { users := [⟨0, "9876543210", "a@x.com", "A", "B", none, "client", true, some 1⟩],
    roles := [⟨0, "Broker", "client", true⟩, ⟨1, "Owner", "client", true⟩],
    userRoles := [⟨0, 0, none⟩],
    tokens := [⟨0, 0, ⟨0, "Broker", 1⟩, 604800001, some "d1", some "ua",
      some "ip", true, none, none⟩],
    nextUserId := 1, nextTokenId := 1 }

/-- The login data the second fixture login returns. -/
def d2W : LoginData :=
  ⟨0, "Broker", ["Broker"], ⟨0, "Broker", 2⟩, ⟨0, "Broker", 2⟩, "A B", "a@x.com"⟩

/-- The state after the second fixture login. -/
def db2W : DB :=
  { users := [⟨0, "9876543210", "a@x.com", "A", "B", none, "client", true, some 2⟩],
    roles := [⟨0, "Broker", "client", true⟩, ⟨1, "Owner", "client", true⟩],
    userRoles := [⟨0, 0, none⟩],
    tokens := [⟨0, 0, ⟨0, "Broker", 2⟩, 604800002, some "d1", some "ua",
      some "ip", true, some 2, none⟩],
    nextUserId := 1, nextTokenId := 1 }

/-- Fixture: the registered user's row. -/
def userW : UserRec := ⟨0, "9876543210", "a@x.com", "A", "B", none, "client", true, none⟩

/-- Fixture: a signup request reusing the registered mobile number with a
fresh email. -/
def srqW : SignupReq :=
  ⟨"9876543210", "b@y.com", "C", "D", "", "", "1111", "v", "", "", "",
   ⟨200, some "VERIFICATION_COMPLETED", none⟩⟩

/-- The refresh data the fixture refresh returns. -/
def rdW : RefreshData := ⟨0, "Broker", ⟨0, "Broker", 5⟩, "A B", "a@x.com"⟩

/-- The state after the fixture refresh: only the last-used timestamp moved. -/
def dbRefreshedW : DB :=
  { users := [⟨0, "9876543210", "a@x.com", "A", "B", none, "client", true, none⟩],
    roles := [⟨0, "Broker", "client", true⟩, ⟨1, "Owner", "client", true⟩],
    userRoles := [⟨0, 0, none⟩],
    tokens := [⟨0, 0, tokW, 100, some "d1", none, none, true, some 5, none⟩],
    nextUserId := 1, nextTokenId := 1 }

/-- Fixture: the authenticated principal for switch-role, active as Broker
and also holding Owner. -/
def auW : AuthUser :=
  ⟨0, "Broker", [⟨0, "Broker", "client", true⟩, ⟨1, "Owner", "client", true⟩]⟩

/-- Fixture: a refresh token whose role claim is Owner, not the user's first
role. -/
def tokOwnerW : RToken := ⟨0, "Owner", 0⟩

/-- Fixture: the user holds Broker and Owner; the stored token claims Owner. -/
def dbOwnerTokW : DB :=
  { users := [⟨0, "9876543210", "a@x.com", "A", "B", none, "client", true, none⟩],
    roles := [⟨0, "Broker", "client", true⟩, ⟨1, "Owner", "client", true⟩],
    userRoles := [⟨0, 0, none⟩, ⟨0, 1, none⟩],
    tokens := [⟨0, 0, tokOwnerW, 100, some "d1", none, none, true, none, none⟩],
    nextUserId := 1, nextTokenId := 1 }

/-- The refresh data for the Owner-claim fixture. -/
def rdOwnerW : RefreshData := ⟨0, "Owner", ⟨0, "Owner", 5⟩, "A B", "a@x.com"⟩

/-- The state after the Owner-claim fixture refresh. -/
def dbOwnerAfterW : DB :=
  { users := [⟨0, "9876543210", "a@x.com", "A", "B", none, "client", true, none⟩],
    roles := [⟨0, "Broker", "client", true⟩, ⟨1, "Owner", "client", true⟩],
    userRoles := [⟨0, 0, none⟩, ⟨0, 1, none⟩],
    tokens := [⟨0, 0, tokOwnerW, 100, some "d1", none, none, true, some 5, none⟩],
    nextUserId := 1, nextTokenId := 1 }

/-- The Owner-claim fixture user's active roles, in assignment order. -/
def rsOwnerW : List RoleRec :=
  [⟨0, "Broker", "client", true⟩, ⟨1, "Owner", "client", true⟩]

/-- Fixture: a non-client (internal) account. -/
def dbAgentW : DB :=
  { users := [⟨0, "9876543210", "a@x.com", "A", "B", none, "internal", true, none⟩],
    roles := [⟨0, "Broker", "client", true⟩, ⟨2, "Agent", "internal", true⟩],
    userRoles := [⟨0, 2, none⟩],
    tokens := [],
    nextUserId := 1, nextTokenId := 0 }

/-- Fixture: a login request naming a garbage role. -/
def rqAgentW : LoginReq := { rqW with roleName := "Garbage" }

/-- The non-client fixture user's row. -/
def userAgentW : UserRec :=
  ⟨0, "9876543210", "a@x.com", "A", "B", none, "internal", true, none⟩

/-- The non-client fixture user's active roles. -/
def rsAgentW : List RoleRec := [⟨2, "Agent", "internal", true⟩]

/-- Fixture: a login request whose OTP verification fails upstream. -/
def rqOtpFailW : LoginReq :=
  { rqW with otp := "9999", providerResp := ⟨702, none, none⟩ }

/-! ## Witnesses -/

/-- C1 witness at the fixture: two sequential logins on an empty token store
leave exactly one active row for the (user, device) pair and the first token
fails liveness. -/
theorem c1_witness :
    Inv dbW ∧ (1 : Nat) ≠ 2 ∧
    login dbW rqW 1 = (.ok d1W, db1W) ∧
    login db1W rqW 2 = (.ok d2W, db2W) ∧
    activeCountUD db2W d1W.userId (strOrNull rqW.deviceId) = 1 ∧
    isLive db2W d1W.refreshToken 5 = false := by
  have hInv : Inv dbW := fun uid => by simp [activeCountU, dbW]
  have hfresh : ∀ t ∈ dbW.tokens, t.refreshToken.iat < 1 := by simp [dbW]
  have h1 : login dbW rqW 1 = (.ok d1W, db1W) := by rfl
  have h2 : login db1W rqW 2 = (.ok d2W, db2W) := by rfl
  have main := c1_one_active_per_user_device dbW db1W db2W rqW 1 2 d1W d2W
    hInv hfresh (by decide) h1 h2
  exact ⟨hInv, by decide, h1, h2, main.2.2.2.1, main.2.2.2.2.2.2.1 5⟩

/-- C2 witness at the fixture: the first login on an empty token store falls
back to creating exactly one row. -/
theorem c2_witness :
    login dbW rqW 1 = (.ok d1W, db1W) ∧
    db1W.tokens.length = dbW.tokens.length +
      (if activeCountU dbW d1W.userId = 0 then 1 else 0) := by
  have h1 : login dbW rqW 1 = (.ok d1W, db1W) := by rfl
  exact ⟨h1, ((c2_rotate_or_create dbW 1).1 rqW d1W db1W h1).2.2⟩

/-- C3 witness at the fixture: a second signup with the registered mobile
number and a fresh email fails 409 naming the mobile number. -/
theorem c3_witness :
    signupValidate srqW = none ∧ verifyOtp srqW.providerResp = .ok () ∧
    dbW.users.find? (signupWhere srqW) = some userW ∧
    userW.email ≠ srqW.email ∧ userW.mobileNumber = srqW.mobileNumber ∧
    signup dbW srqW 3 = (.error ⟨"Mobile number already exists", 409⟩, dbW) := by
  refine ⟨rfl, rfl, rfl, by decide, rfl, ?_⟩
  exact ((c3_signup_combined_uniqueness dbW srqW 3 rfl rfl).1 userW rfl).2.1
    (by decide) rfl

/-- C4 witness at the fixture: a successful refresh leaves the token table's
length unchanged and its response data has no refresh-token key. -/
theorem c4_witness :
    refreshAccessToken dbTokActive (some tokW) 5 = (.ok rdW, dbRefreshedW) ∧
    dbRefreshedW.tokens.length = dbTokActive.tokens.length ∧
    "refreshToken" ∉ refreshDataKeys := by
  have h : refreshAccessToken dbTokActive (some tokW) 5 = (.ok rdW, dbRefreshedW) := by rfl
  have main := c4_refresh_is_access_only dbTokActive (some tokW) 5 rdW dbRefreshedW h
  exact ⟨h, main.2.1, main.2.2.2.2.2.2⟩

/-- C6 witness at the fixture: a non-client role is rejected with the 400
restriction error, and switch-role leaves role assignments untouched. -/
theorem c6_witness :
    ("Admin" : String) ≠ "" ∧ validClientRoles.contains "Admin" = false ∧
    (switchRole dbTokActive auW "Admin" "ua" "ip" 7).1 =
      .error ⟨"Only client roles (Owner, Broker, Investor) can be switched", 400⟩ ∧
    (switchRole dbTokActive auW "Owner" "ua" "ip" 7).2.userRoles =
      dbTokActive.userRoles := by
  refine ⟨by decide, by decide, ?_, ?_⟩
  · exact (c6_switch_role_policy dbTokActive auW "Admin" "ua" "ip" 7).2.1
      (by decide) (by decide)
  · exact (c6_switch_role_policy dbTokActive auW "Owner" "ua" "ip" 7).1

/-- C7 witness at the fixture: a login whose OTP verification fails leaves
the state untouched. -/
theorem c7_witness :
    verifyOtp rqOtpFailW.providerResp = .error ⟨"Invalid OTP entered", 400⟩ ∧
    (login dbW rqOtpFailW 0).2 = dbW := by
  refine ⟨rfl, ?_⟩
  exact (c7_login_otp_failure_no_write dbW rqOtpFailW 0
    ⟨"Invalid OTP entered", 400⟩ rfl).1

/-- C8 witness at the fixture: after a successful logout, a second logout of
the same token fails 400 and a refresh with it fails 401. -/
theorem c8_witness :
    logout dbTokActive (some tokW) = (.ok (), dbTokRevoked) ∧
    (logout dbTokRevoked (some tokW)).1 =
      .error ⟨"Token not found or already revoked", 400⟩ ∧
    (refreshAccessToken dbTokRevoked (some tokW) 5).1 =
      .error ⟨"Invalid or expired refresh token", 401⟩ := by
  have h : logout dbTokActive (some tokW) = (.ok (), dbTokRevoked) := by rfl
  have main := c8_revoked_token_client_error dbTokActive dbTokRevoked tokW 5 h
  exact ⟨h, main.2.1, main.2.2⟩

/-- C9 witness at the fixture: the refresh of a token claiming Owner — still
held, though not the first role on record — binds the new access token to
Owner. -/
theorem c9_witness :
    refreshAccessToken dbOwnerTokW (some tokOwnerW) 5 = (.ok rdOwnerW, dbOwnerAfterW) ∧
    tokOwnerW.role ≠ "" ∧
    findActiveUserById dbOwnerTokW tokOwnerW.sub = some (userW, rsOwnerW) ∧
    rdOwnerW.role = (if rsOwnerW.any (fun r => r.roleName == tokOwnerW.role)
      then tokOwnerW.role else headRoleName rsOwnerW) := by
  refine ⟨rfl, by decide, rfl, ?_⟩
  exact (c9_refresh_role_selection dbOwnerTokW tokOwnerW 5 rdOwnerW dbOwnerAfterW
    userW rsOwnerW rfl (by decide) rfl).1

/-- C10 witness at the fixture: a non-client user logging in with a garbage
role name still succeeds without any role-assignment write. -/
theorem c10_witness :
    loginValidate rqAgentW = none ∧
    verifyOtp rqAgentW.providerResp = .ok () ∧
    findActiveUserByMobile dbAgentW rqAgentW.mobileNumber =
      some (userAgentW, rsAgentW) ∧
    userAgentW.userType ≠ "client" ∧
    (login dbAgentW rqAgentW 1).2.userRoles = dbAgentW.userRoles := by
  refine ⟨rfl, rfl, rfl, by decide, ?_⟩
  exact (c10_login_role_ignored_for_non_client dbAgentW rqAgentW 1 userAgentW
    rsAgentW rfl rfl rfl rfl (by decide)).1

end Auth
